import Mathlib

/-!
Shallow embedding of `src/bot.py` (a linear fetch → probe → report batch job)
and verification of its specification claims.

External effects are modelled as explicit environments:
* HTTP calls (`requests.get`/`requests.post`) become functions into `ApiCall`,
  which either yields a response (status code plus decoded body) or raises an
  exception carrying a message string;
* the `ping` subprocess becomes a function from domain to `PingOutcome`;
* `datetime.now().strftime(fmt)` becomes a function `clock : String → String`
  from format strings to formatted timestamps (time does not advance within a
  run; no claim depends on timestamp values);
* `print` output is collected into `List String` traces, one entry per call.
-/

namespace PingBot

/-- A program entry as decoded from `GET /api/groups/(id)/programs/`
(`bot.py` reads the id and name keys of each entry). -/
structure Program where
  id : Nat
  name : String
deriving DecidableEq

/-- A scope entry as decoded from `GET /api/programs/(id)/scopes/`.
`bot.py` reads the JSON keys `scope_type`, `domain` and `target` with
`dict.get`, so each field is optional. -/
structure Scope where
  scope_type : Option String
  domain : Option String
  target : Option String
deriving DecidableEq

/-- A target to probe: `bot.py` lines 176-179 append
`(domain := domain, program := program_name)` dictionaries. -/
structure Target where
  domain : String
  program : String
deriving DecidableEq

/-- The dictionary returned by `ping_domain` (lines 101-121): domain, status,
details and timestamp. -/
structure PingRecord where
  domain : String
  status : String
  details : String
  timestamp : String
deriving DecidableEq

/-- A `PingRecord` after `main` adds the `program` key (line 212). -/
structure ProbeResult where
  domain : String
  status : String
  details : String
  timestamp : String
  program : String
deriving DecidableEq

/-- Adding the program key to a ping record (bot.py line 212). -/
def toProbeResult (pr : PingRecord) (prog : String) : ProbeResult :=
  ⟨pr.domain, pr.status, pr.details, pr.timestamp, prog⟩

/-- Outcome of one HTTP call: a decoded response with its status code, or a
raised exception carrying the exception text. -/
inductive ApiCall (α : Type) where
  | resp (status : Nat) (body : α)
  | exc (msg : String)
deriving DecidableEq

/-- The remote Django API as seen by `get_targets_from_api`: the
groups-to-programs endpoint and the program-to-scopes endpoint. -/
structure ApiEnv where
  groupPrograms : String → ApiCall (List Program)
  programScopes : Nat → ApiCall (List Scope)

/-- Outcome of one ping subprocess invocation with count 4 and timeout 30
invocation: normal completion with an exit code and captured stdout,
`subprocess.TimeoutExpired`, or any other exception with its text. -/
inductive PingOutcome where
  | completed (returncode : Int) (stdout : String)
  | timedOut
  | raised (msg : String)
deriving DecidableEq

/-- The strftime format used for human-readable timestamps in `bot.py`. -/
def timeFormat : String := "%Y-%m-%d %H:%M:%S"

/-- The strftime format used for the generated upload file name. -/
def fileFormat : String := "%Y%m%d_%H%M%S"

/-- Python `needle in hay` check on characters: does `needle` start `hay`? -/
def listStarts : List Char → List Char → Bool
  | [], _ => true
  | a :: as, bs =>
    match bs with
    | [] => false
    | b :: bs2 => a == b && listStarts as bs2

/-- Python substring containment on character lists. -/
def listSub (needle : List Char) : List Char → Bool
  | [] => needle.isEmpty
  | b :: bs => listStarts needle (b :: bs) || listSub needle bs

/-- Python `needle in hay` for strings (substring containment). -/
def pyIn (needle hay : String) : Bool :=
  listSub needle.data hay.data

/-- `ping_domain` (bot.py lines 77-121) minus its progress print, which is
accounted for in `probeLoop`: classify the subprocess outcome into a
status/details record stamped with the current time. -/
def ping_domain (clock : String → String) (domain : String) (outcome : PingOutcome) : PingRecord :=
  match outcome with
  | PingOutcome.completed rc out =>
    if rc = 0 then
      let lines := out.splitOn "\n"
      let stats_line := lines.filter (fun l => pyIn "min/avg/max" l || pyIn "rtt" l)
      { domain := domain, status := "✅ ONLINE",
        details := match stats_line with
          | [] => "Ping successful"
          | l :: _ => l,
        timestamp := clock timeFormat }
    else
      { domain := domain, status := "❌ OFFLINE", details := "Host unreachable",
        timestamp := clock timeFormat }
  | PingOutcome.timedOut =>
      { domain := domain, status := "⏱️ TIMEOUT", details := "Ping timeout after 30s",
        timestamp := clock timeFormat }
  | PingOutcome.raised msg =>
      { domain := domain, status := "❌ ERROR", details := msg,
        timestamp := clock timeFormat }

/-- Python truthiness of an optional string: present and non-empty. -/
def pyTruthy : Option String → Bool
  | some s => !s.isEmpty
  | none => false

/-- Python `a or b` on optional strings: `a` if truthy, else `b`. -/
def pyOr (a b : Option String) : Option String :=
  match a with
  | some s => if s.isEmpty then b else some s
  | none => b

/-- The per-scope body of the loop at bot.py lines 172-179: keep the entry as
a `Target` when the scope_type field equals "in_scope" and the domain field
or else the target field is truthy. -/
def scopeToTarget (program_name : String) (scope : Scope) : Option Target :=
  if scope.scope_type = some "in_scope" then
    match pyOr scope.domain scope.target with
    | some d => if d.isEmpty then none else some { domain := d, program := program_name }
    | none => none
  else none

/-- Sequencing of target collection with a possible later exception: targets
gathered before the exception are still discarded by the caller. -/
def exceptAppend (ts : List Target) : Except String (List Target) → Except String (List Target)
  | Except.error m => Except.error m
  | Except.ok ts2 => Except.ok (ts ++ ts2)

/-- Sequencing two loop segments: an error in the first wins, otherwise the
outcome of the second is appended. -/
def exceptSeq (a b : Except String (List Target)) : Except String (List Target) :=
  match a with
  | Except.error m => Except.error m
  | Except.ok ts => exceptAppend ts b

/-- A `for` loop over `xs` whose body `step` prints some lines, may append
targets to the accumulator, or may raise: raising stops the loop with the
exception, otherwise the printed lines and collected targets accumulate in
order. Both loops of `get_targets_from_api` have this shape. -/
def stepList (step : α → List String × Except String (List Target)) :
    List α → List String × Except String (List Target)
  | [] => ([], Except.ok [])
  | x :: xs =>
    let hd := step x
    match hd.2 with
    | Except.error m => (hd.1, Except.error m)
    | Except.ok ts =>
      let t := stepList step xs
      (hd.1 ++ t.1, exceptAppend ts t.2)

/-- The body of the per-program inner loop of `get_targets_from_api`
(bot.py lines 156-179): fetch the scopes of the program; a 200 response
contributes its in-scope targets, a non-200 response contributes nothing
(skipped silently), and a raised exception aborts. -/
def programStep (env : ApiEnv) (p : Program) : List String × Except String (List Target) :=
  let l0 := "    🎯 Getting scopes for: " ++ p.name
  match env.programScopes p.id with
  | ApiCall.exc m => ([l0], Except.error m)
  | ApiCall.resp st scopes =>
      ([l0], Except.ok (if st = 200 then scopes.filterMap (scopeToTarget p.name) else []))

/-- The per-program inner loop of `get_targets_from_api`. -/
def goPrograms (env : ApiEnv) (ps : List Program) : List String × Except String (List Target) :=
  stepList (programStep env) ps

/-- The log line printed for a failed group call (bot.py line 149). -/
def failLine (gid : String) (st : Nat) : String :=
  "  ⚠️  Failed to get group " ++ gid ++ ": " ++ toString st

/-- The body of the per-group outer loop of `get_targets_from_api`
(bot.py lines 138-179): fetch the programs of the group; a non-200 response is
logged and the group skipped (`continue`), a raised exception aborts, and
otherwise the programs of the group are processed in the inner loop. -/
def groupStep (env : ApiEnv) (gid : String) : List String × Except String (List Target) :=
  let l0 := "  📁 Getting programs from Group " ++ gid ++ "..."
  match env.groupPrograms gid with
  | ApiCall.exc m => ([l0], Except.error m)
  | ApiCall.resp st progs =>
    if st ≠ 200 then
      ([l0, failLine gid st], Except.ok [])
    else
      let gp := goPrograms env progs
      (l0 :: ("  ✅ Found " ++ toString progs.length ++ " programs") :: gp.1, gp.2)

/-- The per-group outer loop of `get_targets_from_api`. -/
def goGroups (env : ApiEnv) (gids : List String) : List String × Except String (List Target) :=
  stepList (groupStep env) gids

/-- The split-strip-filter parse of the GROUP_IDS string (bot.py line 135):
split on commas, strip whitespace, drop empty entries. -/
def parseGroupIds (s : String) : List String :=
  ((s.splitOn ",").map (fun g => g.trim)).filter (fun g => !g.isEmpty)

/-- `get_targets_from_api` (bot.py lines 124-186) applied to an
already-parsed group-id list: the try/except wrapper returns the collected
targets on success and the empty list when any exception was raised.
Returns the printed lines paired with the resulting target list. -/
def get_targets_from_api (env : ApiEnv) (group_ids : List String) : List String × List Target :=
  let g := goGroups env group_ids
  match g.2 with
  | Except.ok ts =>
      ("📡 Fetching targets from API..." ::
        (g.1 ++ ["✅ Total domains to ping: " ++ toString ts.length]), ts)
  | Except.error m =>
      ("📡 Fetching targets from API..." :: (g.1 ++ ["❌ API Error: " ++ m]), [])

/-- `get_targets_from_api` including the parse of the `GROUP_IDS`
environment string. -/
def get_targets_with_config (env : ApiEnv) (groupIdsStr : String) : List String × List Target :=
  get_targets_from_api env (parseGroupIds groupIdsStr)

/-- The JSON body POSTed to `/api/scans/upload-results/`
(bot.py lines 57-62). -/
structure UploadPayload where
  scan_type : String
  results : String
  file_name : String
  device_id : String
deriving DecidableEq

/-- The upload side of the Django API plus the configured `DEVICE_ID`. -/
structure UploadEnv where
  deviceId : String
  post : UploadPayload → ApiCall String

/-- The per-result block of the report text (bot.py lines 47-50). -/
def resultBlock (r : ProbeResult) : String :=
  r.domain ++ ": " ++ r.status ++ "\n" ++
  "  Details: " ++ r.details ++ "\n" ++
  "  Time: " ++ r.timestamp ++ "\n\n"

/-- Concatenation of the per-result blocks. -/
def resultBlocks : List ProbeResult → String
  | [] => ""
  | r :: rs => resultBlock r ++ resultBlocks rs

/-- The report text built by `upload_results_to_django`
(bot.py lines 43-50): header with date and total count, then one block per
result. -/
def buildResultsText (date : String) (results : List ProbeResult) : String :=
  "# Ping Scan Results\n" ++
  ("# Date: " ++ date ++ "\n") ++
  ("# Total Scanned: " ++ toString results.length ++ "\n\n") ++
  resultBlocks results

/-- The try-block of `upload_results_to_django` (bot.py lines 36-71): build
the payload, POST it, and print according to the status code; a raised
exception surfaces as `Except.error`. -/
def upload_attempt (upl : UploadEnv) (clock : String → String)
    (results : List ProbeResult) : Except String (List String) :=
  let payload : UploadPayload :=
    { scan_type := "ping-check",
      results := buildResultsText (clock timeFormat) results,
      file_name := "ping_results_" ++ clock fileFormat ++ ".txt",
      device_id := upl.deviceId }
  match upl.post payload with
  | ApiCall.resp code txt =>
    if code = 200 then
      Except.ok ["✅ Results uploaded to Django API successfully",
                 "   Django will store them in Telegram automatically"]
    else
      Except.ok ["⚠️  Upload failed: " ++ toString code,
                 "   Response: " ++ txt]
  | ApiCall.exc e => Except.error e

/-- `upload_results_to_django` (bot.py lines 32-74): the opening print, then
the try-block with its catch-all `except` that only prints the error. The
function returns its printed lines and can never propagate an exception. -/
def upload_results_to_django (upl : UploadEnv) (clock : String → String)
    (results : List ProbeResult) : List String :=
  "📤 Uploading results to Django API..." ::
  (match upload_attempt upl clock results with
   | Except.ok ls => ls
   | Except.error e => ["❌ Upload error: " ++ e])

/-- One iteration body of the probing loop: `ping_domain` plus the added
`program` key (bot.py lines 211-212). -/
def probeOne (clock : String → String) (ping : String → PingOutcome) (t : Target) : ProbeResult :=
  toProbeResult (ping_domain clock t.domain (ping t.domain)) t.program

/-- The probing loop of `main` (bot.py lines 208-214), with `i` the 1-based
iteration counter and `n` the total count; collects the progress prints
(including the print issued inside `ping_domain`) and the result list. -/
def probeLoop (clock : String → String) (ping : String → PingOutcome) (n : Nat) :
    Nat → List Target → List String × List ProbeResult
  | _, [] => ([], [])
  | i, t :: ts =>
    let rest := probeLoop clock ping n (i + 1) ts
    (("\n[" ++ toString i ++ "/" ++ toString n ++ "] " ++ t.domain ++ " (" ++ t.program ++ ")") ::
       ("  🏓 Pinging " ++ t.domain ++ "...") :: rest.1,
     probeOne clock ping t :: rest.2)

/-- Summary classification by the check-mark emoji appearing as a substring
of the status (bot.py line 221). -/
def onlineResults (results : List ProbeResult) : List ProbeResult :=
  results.filter (fun r => pyIn "✅" r.status)

/-- Summary classification by the cross-mark emoji (bot.py line 222). -/
def offlineResults (results : List ProbeResult) : List ProbeResult :=
  results.filter (fun r => pyIn "❌" r.status)

/-- Summary classification by the stopwatch emoji (bot.py line 223). -/
def timeoutResults (results : List ProbeResult) : List ProbeResult :=
  results.filter (fun r => pyIn "⏱️" r.status)

/-- The separator line: the equals sign repeated 50 times. -/
def sep : String := String.mk (List.replicate 50 (Char.ofNat 61))

/-- Outcome of one run of `main`: printed lines, the accumulated results
list, the report text POSTed to the upload endpoint (if the upload stage was
reached), and the uncaught exception terminating the run, if any. -/
structure MainOutcome where
  trace : List String
  results : List ProbeResult
  uploaded : Option String
  crash : Option String
deriving DecidableEq

/-- `main` (bot.py lines 189-234) applied to an already-parsed group-id
list. On the empty-target branch the source calls `send_telegram`, a name
defined nowhere in `bot.py` and not imported, so Python raises `NameError`
there and the run crashes; this is modelled by the `crash` field. On the
non-empty branch the loop, summary, upload and closing prints all run. -/
def mainRun (env : ApiEnv) (group_ids : List String) (ping : String → PingOutcome)
    (upl : UploadEnv) (clock : String → String) : MainOutcome :=
  let banner := [sep, "🏓 SIMPLE PING BOT - STARTING", sep,
                 "⏰ Started at: " ++ clock timeFormat, ""]
  let fetched := get_targets_from_api env group_ids
  match fetched.2 with
  | [] =>
    { trace := banner ++ fetched.1 ++ ["❌ No targets found!"],
      results := [],
      uploaded := none,
      crash := some "NameError: name send_telegram is not defined" }
  | t :: ts =>
    let targets := t :: ts
    let pl := probeLoop clock ping targets.length 1 targets
    let results := pl.2
    { trace := banner ++ fetched.1 ++ pl.1 ++
        [("\n" ++ sep), "📊 RESULTS SUMMARY", sep,
         "✅ Online: " ++ toString (onlineResults results).length,
         "❌ Offline: " ++ toString (offlineResults results).length,
         "⏱️ Timeout: " ++ toString (timeoutResults results).length,
         "📊 Total: " ++ toString results.length] ++
        upload_results_to_django upl clock results ++
        ["\n✅ Done!", sep],
      results := results,
      uploaded := some (buildResultsText (clock timeFormat) results),
      crash := none }

/-- `main` including the parse of the `GROUP_IDS` environment string
performed inside `get_targets_from_api`. -/
def mainWithConfig (env : ApiEnv) (groupIdsStr : String) (ping : String → PingOutcome)
    (upl : UploadEnv) (clock : String → String) : MainOutcome :=
  mainRun env (parseGroupIds groupIdsStr) ping upl clock

/-! ## Concrete environments used to instantiate the theorems -/

/-- An API whose every call raises a connection error. -/
def downApiEnv : ApiEnv :=
  { groupPrograms := fun _ => ApiCall.exc "ConnectionError",
    programScopes := fun _ => ApiCall.exc "ConnectionError" }

/-- An API with one program ("progA") whose single in-scope entry is the
domain "example.com". -/
def oneTargetEnv : ApiEnv :=
  { groupPrograms := fun _ => ApiCall.resp 200 [{ id := 7, name := "progA" }],
    programScopes := fun _ => ApiCall.resp 200
      [{ scope_type := some "in_scope", domain := some "example.com", target := none }] }

/-- Like `oneTargetEnv`, but the programs-list call for group "2" fails with
status 500. -/
def failGroupEnv : ApiEnv :=
  { groupPrograms := fun gid =>
      if gid = "2" then ApiCall.resp 500 [] else ApiCall.resp 200 [{ id := 7, name := "progA" }],
    programScopes := fun _ => ApiCall.resp 200
      [{ scope_type := some "in_scope", domain := some "example.com", target := none }] }

/-- Like `oneTargetEnv`, but the programs-list call for group "2" raises. -/
def excGroupEnv : ApiEnv :=
  { groupPrograms := fun gid =>
      if gid = "2" then ApiCall.exc "ReadTimeout" else ApiCall.resp 200 [{ id := 7, name := "progA" }],
    programScopes := fun _ => ApiCall.resp 200
      [{ scope_type := some "in_scope", domain := some "example.com", target := none }] }

/-- A ping environment whose every invocation times out. -/
def timeoutPing : String → PingOutcome := fun _ => PingOutcome.timedOut

/-- A ping environment whose every invocation completes with exit code 0. -/
def okPing : String → PingOutcome := fun _ => PingOutcome.completed 0 ""

/-- An upload endpoint that accepts every payload. -/
def okUploadEnv : UploadEnv := { deviceId := "dev", post := fun _ => ApiCall.resp 200 "ok" }

/-- An upload endpoint that raises on every POST. -/
def excUploadEnv : UploadEnv := { deviceId := "dev", post := fun _ => ApiCall.exc "SSLError" }

/-- A clock returning a fixed formatted time for every format string. -/
def fixedClock : String → String := fun _ => "2026-01-01 00:00:00"

/-- The four status strings `ping_domain` can produce (the `status` enum of
the data model). -/
def validStatuses : List String := ["✅ ONLINE", "❌ OFFLINE", "⏱️ TIMEOUT", "❌ ERROR"]

/-- A concrete result list with one result of each of three statuses. -/
def demoResults : List ProbeResult :=
  [⟨"a.com", "✅ ONLINE", "Ping successful", "T", "p"⟩,
   ⟨"b.com", "❌ ERROR", "ping not found", "T", "p"⟩,
   ⟨"c.com", "⏱️ TIMEOUT", "Ping timeout after 30s", "T", "p"⟩]

/-! ## Helper lemmas -/

theorem ping_domain_dom (clock : String → String) (d : String) (o : PingOutcome) :
    (ping_domain clock d o).domain = d := by
  cases o with
  | completed rc out => by_cases h : rc = 0 <;> simp [ping_domain, h]
  | timedOut => rfl
  | raised m => rfl

theorem probeOne_dom (clock : String → String) (ping : String → PingOutcome) (t : Target) :
    (probeOne clock ping t).domain = t.domain := by
  simp [probeOne, toProbeResult, ping_domain_dom]

theorem probeOne_prog (clock : String → String) (ping : String → PingOutcome) (t : Target) :
    (probeOne clock ping t).program = t.program := rfl

theorem probeLoop_snd (clock : String → String) (ping : String → PingOutcome) (n : Nat) :
    ∀ (i : Nat) (ts : List Target),
      (probeLoop clock ping n i ts).2 = ts.map (probeOne clock ping) := by
  intro i ts
  induction ts generalizing i with
  | nil => rfl
  | cons t ts ih => simp [probeLoop, ih]

theorem exceptAppend_nil (b : Except String (List Target)) : exceptAppend [] b = b := by
  cases b <;> rfl

theorem exceptSeq_assoc (a b c : Except String (List Target)) :
    exceptSeq (exceptSeq a b) c = exceptSeq a (exceptSeq b c) := by
  cases a <;> cases b <;> cases c <;> simp [exceptSeq, exceptAppend]

theorem stepList_snd_append (step : α → List String × Except String (List Target))
    (pre rest : List α) :
    (stepList step (pre ++ rest)).2 =
      exceptSeq (stepList step pre).2 (stepList step rest).2 := by
  induction pre with
  | nil =>
    cases h : (stepList step rest).2 <;> simp [stepList, exceptSeq, exceptAppend, h]
  | cons x pre ih =>
    cases h : (step x).2 with
    | error m => simp [stepList, h, exceptSeq]
    | ok ts =>
      cases h2 : (stepList step pre).2 with
      | error m => simp [stepList, h, h2, ih, exceptSeq, exceptAppend]
      | ok ts2 =>
        cases h3 : (stepList step rest).2 <;>
          simp [stepList, h, h2, h3, ih, exceptSeq, exceptAppend]

theorem stepList_fst_append_of_ok (step : α → List String × Except String (List Target))
    (pre rest : List α) (ts : List Target) (h : (stepList step pre).2 = Except.ok ts) :
    (stepList step (pre ++ rest)).1 = (stepList step pre).1 ++ (stepList step rest).1 := by
  induction pre generalizing ts with
  | nil => simp [stepList]
  | cons x pre ih =>
    cases hx : (step x).2 with
    | error m => rw [stepList, hx] at h; simp at h
    | ok ts1 =>
      rw [stepList, hx] at h
      simp only [] at h
      cases h2 : (stepList step pre).2 with
      | error m =>
        rw [h2] at h
        simp [exceptAppend] at h
      | ok ts2 =>
        simp only [List.cons_append, stepList, hx, List.append_eq]
        rw [ih _ h2, List.append_assoc]

theorem get_targets_snd (env : ApiEnv) (gids : List String) :
    (get_targets_from_api env gids).2 =
      match (goGroups env gids).2 with
      | Except.ok ts => ts
      | Except.error _ => [] := by
  cases h : (goGroups env gids).2 <;> simp [get_targets_from_api, h]

theorem get_targets_fst_mem (env : ApiEnv) (gids : List String) (x : String)
    (h : x ∈ (goGroups env gids).1) : x ∈ (get_targets_from_api env gids).1 := by
  cases h2 : (goGroups env gids).2 <;> simp [get_targets_from_api, h2, h]

theorem goGroups_snd_append (env : ApiEnv) (pre rest : List String) :
    (goGroups env (pre ++ rest)).2 = exceptSeq (goGroups env pre).2 (goGroups env rest).2 :=
  stepList_snd_append (groupStep env) pre rest

theorem goGroups_fst_append_of_ok (env : ApiEnv) (pre rest : List String) (ts : List Target)
    (h : (goGroups env pre).2 = Except.ok ts) :
    (goGroups env (pre ++ rest)).1 = (goGroups env pre).1 ++ (goGroups env rest).1 :=
  stepList_fst_append_of_ok (groupStep env) pre rest ts h

theorem toString_one : toString (1 : Nat) = "1" := rfl

theorem mainRun_pos_results (env : ApiEnv) (gids : List String) (ping : String → PingOutcome)
    (upl : UploadEnv) (clock : String → String) (t : Target) (ts : List Target)
    (h : (get_targets_from_api env gids).2 = t :: ts) :
    (mainRun env gids ping upl clock).results = (t :: ts).map (probeOne clock ping) := by
  simp only [mainRun, h, probeLoop_snd]

theorem mainRun_pos_crash (env : ApiEnv) (gids : List String) (ping : String → PingOutcome)
    (upl : UploadEnv) (clock : String → String) (t : Target) (ts : List Target)
    (h : (get_targets_from_api env gids).2 = t :: ts) :
    (mainRun env gids ping upl clock).crash = none := by
  simp only [mainRun, h]

theorem mainRun_pos_uploaded (env : ApiEnv) (gids : List String) (ping : String → PingOutcome)
    (upl : UploadEnv) (clock : String → String) (t : Target) (ts : List Target)
    (h : (get_targets_from_api env gids).2 = t :: ts) :
    (mainRun env gids ping upl clock).uploaded
      = some (buildResultsText (clock timeFormat) ((t :: ts).map (probeOne clock ping))) := by
  simp only [mainRun, h, probeLoop_snd]

theorem mainRun_pos_done (env : ApiEnv) (gids : List String) (ping : String → PingOutcome)
    (upl : UploadEnv) (clock : String → String) (t : Target) (ts : List Target)
    (h : (get_targets_from_api env gids).2 = t :: ts) :
    "\n✅ Done!" ∈ (mainRun env gids ping upl clock).trace := by
  simp [mainRun, h]

theorem mainRun_pos_upload_sub (env : ApiEnv) (gids : List String) (ping : String → PingOutcome)
    (upl : UploadEnv) (clock : String → String) (t : Target) (ts : List Target)
    (h : (get_targets_from_api env gids).2 = t :: ts) (x : String)
    (hx : x ∈ upload_results_to_django upl clock ((t :: ts).map (probeOne clock ping))) :
    x ∈ (mainRun env gids ping upl clock).trace := by
  simp only [mainRun, h, probeLoop_snd, List.mem_append]
  tauto

theorem pyIn_on_online : pyIn "✅" "✅ ONLINE" = true := rfl

theorem pyIn_off_online : pyIn "❌" "✅ ONLINE" = false := rfl

theorem pyIn_to_online : pyIn "⏱️" "✅ ONLINE" = false := rfl

theorem pyIn_on_offline : pyIn "✅" "❌ OFFLINE" = false := rfl

theorem pyIn_off_offline : pyIn "❌" "❌ OFFLINE" = true := rfl

theorem pyIn_to_offline : pyIn "⏱️" "❌ OFFLINE" = false := rfl

theorem pyIn_on_timeout : pyIn "✅" "⏱️ TIMEOUT" = false := rfl

theorem pyIn_off_timeout : pyIn "❌" "⏱️ TIMEOUT" = false := rfl

theorem pyIn_to_timeout : pyIn "⏱️" "⏱️ TIMEOUT" = true := rfl

theorem pyIn_on_error : pyIn "✅" "❌ ERROR" = false := rfl

theorem pyIn_off_error : pyIn "❌" "❌ ERROR" = true := rfl

theorem pyIn_to_error : pyIn "⏱️" "❌ ERROR" = false := rfl

theorem summary_sum (results : List ProbeResult)
    (h : ∀ r ∈ results, r.status ∈ validStatuses) :
    ((onlineResults results).length + (offlineResults results).length)
        + (timeoutResults results).length = results.length := by
  induction results with
  | nil => rfl
  | cons r rs ih =>
    have hr := h r (List.mem_cons_self r rs)
    have hrs : ∀ x ∈ rs, x.status ∈ validStatuses :=
      fun x hx => h x (List.mem_cons_of_mem r hx)
    have e := ih hrs
    simp only [validStatuses, List.mem_cons, List.not_mem_nil, or_false] at hr
    rcases hr with h1 | h1 | h1 | h1 <;>
      simp [onlineResults, offlineResults, timeoutResults, List.filter_cons, h1,
        pyIn_on_online, pyIn_off_online, pyIn_to_online,
        pyIn_on_offline, pyIn_off_offline, pyIn_to_offline,
        pyIn_on_timeout, pyIn_off_timeout, pyIn_to_timeout,
        pyIn_on_error, pyIn_off_error, pyIn_to_error] at e ⊢ <;>
      omega

/-! ## Claim theorems -/

/-- C4: `ping_domain` classifies the subprocess outcome as the spec states:
exit code 0 maps to ONLINE; a non-zero exit code maps to OFFLINE with the
generic unreachable details string; a 30-second timeout maps to TIMEOUT with
the fixed timeout message; and any other exception maps to ERROR with the
exception text as details. -/
theorem ping_domain_classification (clock : String → String) (domain out msg : String)
    (rc : Int) (hrc : rc ≠ 0) :
    (ping_domain clock domain (PingOutcome.completed 0 out)).status = "✅ ONLINE" ∧
    ((ping_domain clock domain (PingOutcome.completed rc out)).status = "❌ OFFLINE" ∧
      (ping_domain clock domain (PingOutcome.completed rc out)).details = "Host unreachable") ∧
    ((ping_domain clock domain PingOutcome.timedOut).status = "⏱️ TIMEOUT" ∧
      (ping_domain clock domain PingOutcome.timedOut).details = "Ping timeout after 30s") ∧
    ((ping_domain clock domain (PingOutcome.raised msg)).status = "❌ ERROR" ∧
      (ping_domain clock domain (PingOutcome.raised msg)).details = msg) := by
  refine ⟨rfl, ⟨?_, ?_⟩, ⟨rfl, rfl⟩, ⟨rfl, rfl⟩⟩ <;> simp [ping_domain, hrc]

/-- C4 witness: the classification theorem applied at exit code 1. -/
theorem ping_domain_classification_witness :
    (ping_domain (fun _ => "T") "example.com" (PingOutcome.completed 1 "")).status
      = "❌ OFFLINE" :=
  (ping_domain_classification (fun _ => "T") "example.com" "" "boom" 1 (by decide)).2.1.1

/-- C5: a scope entry yields a `Target` if and only if its `scope_type`
field equals `"in_scope"` and its `domain` field or, failing that, its
`target` field supplies a (non-empty) domain; entries lacking both are
excluded. -/
theorem scope_entry_inclusion (pname : String) (scope : Scope) :
    (∃ t, scopeToTarget pname scope = some t) ↔
      (scope.scope_type = some "in_scope" ∧
        (pyTruthy scope.domain || pyTruthy scope.target) = true) := by
  rcases scope with ⟨st, d, t⟩
  by_cases hst : st = some "in_scope"
  · subst hst
    cases d with
    | none => cases t with
      | none => simp [scopeToTarget, pyOr, pyTruthy]
      | some s => by_cases hs : s.isEmpty <;> simp [scopeToTarget, pyOr, pyTruthy, hs]
    | some s =>
      by_cases hs : s.isEmpty
      · cases t with
        | none => simp [scopeToTarget, pyOr, pyTruthy, hs]
        | some s2 => by_cases hs2 : s2.isEmpty <;> simp [scopeToTarget, pyOr, pyTruthy, hs, hs2]
      · simp [scopeToTarget, pyOr, pyTruthy, hs]
  · simp [scopeToTarget, pyTruthy, hst]

/-- C6: a failing (non-200) programs-list call for one group does not
prevent processing of the other groups: the fetched targets are the same as
if that group were absent, and — provided the preceding groups did not
raise — the failure line for that group is printed. -/
theorem failed_group_skipped (env : ApiEnv) (pre post : List String) (g : String)
    (st : Nat) (body : List Program) (ts : List Target)
    (hg : env.groupPrograms g = ApiCall.resp st body) (hst : st ≠ 200)
    (hpre : (goGroups env pre).2 = Except.ok ts) :
    (get_targets_from_api env (pre ++ g :: post)).2
        = (get_targets_from_api env (pre ++ post)).2 ∧
    failLine g st ∈ (get_targets_from_api env (pre ++ g :: post)).1 := by
  have hstep : groupStep env g = (["  📁 Getting programs from Group " ++ g ++ "...",
      failLine g st], Except.ok []) := by
    simp [groupStep, hg, hst]
  constructor
  · have h3 : (goGroups env (g :: post)).2 = (goGroups env post).2 := by
      simp only [goGroups, stepList, hstep, exceptAppend_nil]
    rw [get_targets_snd, get_targets_snd, goGroups_snd_append, goGroups_snd_append, h3]
  · apply get_targets_fst_mem
    rw [goGroups_fst_append_of_ok env pre (g :: post) ts hpre]
    have hmem : failLine g st ∈ (goGroups env (g :: post)).1 := by
      simp [goGroups, stepList, hstep]
    exact List.mem_append_right _ hmem

/-- C6 witness: with group "1" failing with status 500 and group "2"
yielding one in-scope target, the fetched targets equal those of a run on
group "2" alone, and the failure line for group "1" is printed. -/
theorem failed_group_skipped_witness :
    (get_targets_from_api failGroupEnv (["1"] ++ "2" :: [])).2
        = (get_targets_from_api failGroupEnv (["1"] ++ [])).2 ∧
    failLine "2" 500 ∈ (get_targets_from_api failGroupEnv (["1"] ++ "2" :: [])).1 :=
  failed_group_skipped failGroupEnv ["1"] [] "2" 500 [] [⟨"example.com", "progA"⟩]
    (by rfl) (by decide) (by rfl)

/-- C7: a raised exception anywhere inside the fetching stage makes
`get_targets_from_api` return the empty list: any run whose loop ended in an
exception yields `[]`, and in particular a group call that raises discards
all targets already collected from the preceding groups. -/
theorem fetch_exception_discards_collected (env : ApiEnv) (gids pre post : List String)
    (g : String) (ts : List Target) (m : String) :
    ((goGroups env gids).2 = Except.error m → (get_targets_from_api env gids).2 = []) ∧
    ((goGroups env pre).2 = Except.ok ts → env.groupPrograms g = ApiCall.exc m →
      (get_targets_from_api env (pre ++ g :: post)).2 = []) := by
  constructor
  · intro h
    rw [get_targets_snd, h]
  · intro hpre hg
    have hstep : groupStep env g
        = (["  📁 Getting programs from Group " ++ g ++ "..."], Except.error m) := by
      simp [groupStep, hg]
    have h3 : (goGroups env (g :: post)).2 = Except.error m := by
      simp only [goGroups, stepList, hstep]
    rw [get_targets_snd, goGroups_snd_append, hpre, h3]
    rfl

/-- C7 witness: a first-call exception yields the empty list, and an
exception on group "2" discards the target already collected from
group "1". -/
theorem fetch_exception_discards_collected_witness :
    (get_targets_from_api downApiEnv ["1"]).2 = [] ∧
    (get_targets_from_api excGroupEnv (["1"] ++ "2" :: [])).2 = [] :=
  ⟨(fetch_exception_discards_collected downApiEnv ["1"] [] [] "g" [] "ConnectionError").1
      (by rfl),
   (fetch_exception_discards_collected excGroupEnv ["1"] ["1"] [] "2"
      [⟨"example.com", "progA"⟩] "ReadTimeout").2 (by rfl) (by rfl)⟩

/-- C1 (evidence for the code bug): with the API down the fetched target
list is empty, and `main` then calls `send_telegram`, a name defined nowhere
in `bot.py`, so the run ends in an uncaught `NameError` — a process-level
failure exit — instead of completing normally. -/
theorem main_crashes_on_empty_targets :
    (mainRun downApiEnv ["1"] timeoutPing okUploadEnv fixedClock).crash
      = some "NameError: name send_telegram is not defined" := rfl

/-- C2 (evidence for the code bug): on the empty-target path `main` does log
"No targets found", performs no probing and no upload — but it does not
terminate normally: the attempted failure notification crashes with
`NameError` because `send_telegram` is undefined. -/
theorem empty_target_path_behavior :
    "❌ No targets found!" ∈ (mainRun downApiEnv ["1"] timeoutPing okUploadEnv fixedClock).trace ∧
    (mainRun downApiEnv ["1"] timeoutPing okUploadEnv fixedClock).results = [] ∧
    (mainRun downApiEnv ["1"] timeoutPing okUploadEnv fixedClock).uploaded = none ∧
    (mainRun downApiEnv ["1"] timeoutPing okUploadEnv fixedClock).crash
      = some "NameError: name send_telegram is not defined" :=
  ⟨by decide, rfl, rfl, rfl⟩

/-- C3: for every non-empty fetched target list, the probing loop of `main`
produces exactly one `ProbeResult` per `Target` — same length, and the i-th
result carries the domain and program of the i-th target (stated as equality of
the (domain, program) projections in order). -/
theorem one_probe_result_per_target (env : ApiEnv) (gids : List String)
    (ping : String → PingOutcome) (upl : UploadEnv) (clock : String → String)
    (h : (get_targets_from_api env gids).2 ≠ []) :
    (mainRun env gids ping upl clock).results.length
        = (get_targets_from_api env gids).2.length ∧
    (mainRun env gids ping upl clock).results.map (fun r => (r.domain, r.program))
        = ((get_targets_from_api env gids).2).map (fun t => (t.domain, t.program)) := by
  obtain ⟨t, ts, htt⟩ : ∃ t ts, (get_targets_from_api env gids).2 = t :: ts := by
    cases hh : (get_targets_from_api env gids).2 with
    | nil => exact absurd hh h
    | cons a b => exact ⟨a, b, rfl⟩
  have hres := mainRun_pos_results env gids ping upl clock t ts htt
  rw [hres, htt]
  refine ⟨by simp, ?_⟩
  rw [List.map_map]
  apply List.map_congr_left
  intro x _
  simp [Function.comp, probeOne_dom, probeOne_prog]

/-- C3 witness: with one fetched target the loop produces one result. -/
theorem one_probe_result_per_target_witness :
    (mainRun oneTargetEnv ["1"] timeoutPing okUploadEnv fixedClock).results.length
        = (get_targets_from_api oneTargetEnv ["1"]).2.length :=
  (one_probe_result_per_target oneTargetEnv ["1"] timeoutPing okUploadEnv fixedClock
    (by decide)).1

/-- C9: on every run that reaches the upload stage, the upload never
escalates: the run does not crash, the closing "Done" line is printed, a
successful or non-200 upload only contributes its log lines to the console
trace, and a raised upload exception only contributes the upload-error log
line. -/
theorem upload_errors_only_logged (env : ApiEnv) (gids : List String)
    (ping : String → PingOutcome) (upl : UploadEnv) (clock : String → String)
    (h : (get_targets_from_api env gids).2 ≠ []) :
    (mainRun env gids ping upl clock).crash = none ∧
    "\n✅ Done!" ∈ (mainRun env gids ping upl clock).trace ∧
    (∀ ls, upload_attempt upl clock (mainRun env gids ping upl clock).results = Except.ok ls →
      ∀ x ∈ ls, x ∈ (mainRun env gids ping upl clock).trace) ∧
    (∀ e, upload_attempt upl clock (mainRun env gids ping upl clock).results = Except.error e →
      ("❌ Upload error: " ++ e) ∈ (mainRun env gids ping upl clock).trace) := by
  obtain ⟨t, ts, htt⟩ : ∃ t ts, (get_targets_from_api env gids).2 = t :: ts := by
    cases hh : (get_targets_from_api env gids).2 with
    | nil => exact absurd hh h
    | cons a b => exact ⟨a, b, rfl⟩
  refine ⟨mainRun_pos_crash env gids ping upl clock t ts htt,
          mainRun_pos_done env gids ping upl clock t ts htt, ?_, ?_⟩
  · intro ls hls x hx
    apply mainRun_pos_upload_sub env gids ping upl clock t ts htt
    rw [mainRun_pos_results env gids ping upl clock t ts htt] at hls
    simp only [List.map_cons] at hls
    simp [upload_results_to_django, hls]
    exact Or.inr hx
  · intro e he
    apply mainRun_pos_upload_sub env gids ping upl clock t ts htt
    rw [mainRun_pos_results env gids ping upl clock t ts htt] at he
    simp only [List.map_cons] at he
    simp [upload_results_to_django, he]

/-- C9 witness: with an upload endpoint that raises, the run still does not
crash and the upload-error line appears in the trace. -/
theorem upload_errors_only_logged_witness :
    (mainRun oneTargetEnv ["1"] timeoutPing excUploadEnv fixedClock).crash = none ∧
    ("❌ Upload error: " ++ "SSLError")
        ∈ (mainRun oneTargetEnv ["1"] timeoutPing excUploadEnv fixedClock).trace :=
  ⟨(upload_errors_only_logged oneTargetEnv ["1"] timeoutPing excUploadEnv fixedClock
      (by decide)).1,
   (upload_errors_only_logged oneTargetEnv ["1"] timeoutPing excUploadEnv fixedClock
      (by decide)).2.2.2 "SSLError" (by rfl)⟩

/-- C8: on a run whose single fetched target is "example.com", the text blob
POSTed by the Reporter contains the line "example.com: " followed by the
status `ping_domain` classified for that domain (ONLINE, OFFLINE or TIMEOUT
accordingly), and its header contains the total-scanned count 1. -/
theorem report_contains_example_line (env : ApiEnv) (gids : List String)
    (ping : String → PingOutcome) (upl : UploadEnv) (clock : String → String) (prog : String)
    (h : (get_targets_from_api env gids).2 = [{ domain := "example.com", program := prog }]) :
    ∃ txt, (mainRun env gids ping upl clock).uploaded = some txt ∧
      (∃ a b, txt = a ++ ("example.com: "
          ++ (ping_domain clock "example.com" (ping "example.com")).status ++ "\n") ++ b) ∧
      (∃ c d, txt = c ++ "# Total Scanned: 1\n" ++ d) := by
  have hup := mainRun_pos_uploaded env gids ping upl clock
    { domain := "example.com", program := prog } [] h
  refine ⟨_, hup, ?_, ?_⟩
  · refine ⟨"# Ping Scan Results\n" ++ ("# Date: " ++ clock timeFormat ++ "\n")
        ++ ("# Total Scanned: 1\n\n"),
      ("  Details: " ++ (ping_domain clock "example.com" (ping "example.com")).details
        ++ "\n" ++ "  Time: " ++ (ping_domain clock "example.com" (ping "example.com")).timestamp
        ++ "\n\n"), ?_⟩
    apply String.ext
    simp [buildResultsText, resultBlocks, resultBlock, probeOne, toProbeResult,
      ping_domain_dom, toString_one, String.data_append]
  · refine ⟨"# Ping Scan Results\n" ++ ("# Date: " ++ clock timeFormat ++ "\n"),
      "\n" ++ resultBlock (probeOne clock ping { domain := "example.com", program := prog }), ?_⟩
    apply String.ext
    simp [buildResultsText, resultBlocks, resultBlock, toString_one, String.data_append]

/-- C8 witness: the report theorem applied to the one-target API with a
timing-out ping. -/
theorem report_contains_example_line_witness :
    ∃ txt, (mainRun oneTargetEnv ["1"] timeoutPing okUploadEnv fixedClock).uploaded = some txt ∧
      (∃ a b, txt = a ++ ("example.com: "
          ++ (ping_domain fixedClock "example.com" (timeoutPing "example.com")).status ++ "\n") ++ b) ∧
      (∃ c d, txt = c ++ "# Total Scanned: 1\n" ++ d) :=
  report_contains_example_line oneTargetEnv ["1"] timeoutPing okUploadEnv fixedClock "progA"
    (by decide)

/-- C10: for every result list whose statuses are among the four statuses
`ping_domain` produces, the emoji-substring classification of the summary
counts ERROR results under the Offline tally (and under no other tally), and
the Online, Offline and Timeout counts sum to the Total count. -/
theorem summary_emoji_partition (results : List ProbeResult)
    (h : ∀ r ∈ results, r.status ∈ validStatuses) :
    ((onlineResults results).length + (offlineResults results).length)
        + (timeoutResults results).length = results.length ∧
    (∀ r ∈ results, r.status = "❌ ERROR" →
      r ∈ offlineResults results ∧ r ∉ onlineResults results ∧ r ∉ timeoutResults results) := by
  refine ⟨summary_sum results h, ?_⟩
  intro r hr herr
  refine ⟨List.mem_filter.mpr ⟨hr, by rw [herr]; exact pyIn_off_error⟩, ?_, ?_⟩
  · intro hmem
    have h2 := (List.mem_filter.mp hmem).2
    rw [herr, pyIn_on_error] at h2
    exact Bool.false_ne_true h2
  · intro hmem
    have h2 := (List.mem_filter.mp hmem).2
    rw [herr, pyIn_to_error] at h2
    exact Bool.false_ne_true h2

/-- C10 witness: the partition theorem applied to a concrete list holding
one ONLINE, one ERROR and one TIMEOUT result. -/
theorem summary_emoji_partition_witness :
    ((onlineResults demoResults).length + (offlineResults demoResults).length)
        + (timeoutResults demoResults).length = demoResults.length :=
  (summary_emoji_partition demoResults (by decide)).1

end PingBot
